import Mathlib

/-!
Shallow embedding of the `nstd::memory` ownership subsystem:
`buffer_base` (non-owning view), `released_buffer` (transfer record),
`unique_buffer` (move-only owner), `shared_buffer` (refcounted owner with a
heap-allocated control block), and `MemPool` (aligned fixed-block pool).

Modelling conventions:
- raw pointers are byte addresses in `Nat`, with `0` standing for `nullptr`;
- a deleter is an identity tag `Option Nat` (`none` = empty `std::function`);
  invoking a deleter is recorded as an event `(tag, pointer)` in a call list
  returned by each operation that can run deleters;
- the shared control-block heap is a `List (Option CtrlBlock)` indexed by
  block id; `new` appends, `delete` overwrites the slot with `none`;
- machine sizes are `Nat` (the quantities involved never wrap in the
  scenarios of the claims).
-/

namespace NstdMemory

/-- `nstd::memory::MemoryLocation`. -/
inductive MemoryLocation where
  | Host
  | HostPinned
  | Device
  | Unified
  deriving DecidableEq, Repr

/-- A recorded deleter invocation: (deleter tag, pointer argument). -/
abbrev DCall := Nat × Nat

/-- `buffer_base<T>`: non-owning (pointer, count, location) view. -/
structure BufferBase where
  data_ : Nat
  count_ : Nat
  location_ : MemoryLocation
  deriving DecidableEq, Repr

/-- `buffer_base` default constructor: null pointer, zero count, Host. -/
def BufferBase.default_ : BufferBase :=
  { data_ := 0, count_ := 0, location_ := MemoryLocation.Host }

/-- `released_buffer<T>`: transfer record (ptr, count, deleter?, location). -/
structure ReleasedBuffer where
  ptr : Nat
  count : Nat
  deleter : Option Nat
  location : MemoryLocation
  deriving DecidableEq, Repr

/-- `unique_buffer<T>`: the view fields of `buffer_base` plus the owned
deleter `deleter_` (`none` models an empty `std::function`). -/
structure UniqueBuffer where
  data_ : Nat
  count_ : Nat
  location_ : MemoryLocation
  deleter_ : Option Nat
  deriving DecidableEq, Repr

namespace UniqueBuffer

/-- Default constructor: empty handle. -/
def default_ : UniqueBuffer :=
  { data_ := 0, count_ := 0, location_ := MemoryLocation.Host, deleter_ := none }

/-- Adopting constructor `unique_buffer(ptr, count, deleter, loc)`: stores the
four fields unconditionally. -/
def mk_ (ptr count : Nat) (deleter : Option Nat) (loc : MemoryLocation) :
    UniqueBuffer :=
  { data_ := ptr, count_ := count, location_ := loc, deleter_ := deleter }

/-- Identity tag for the `delete[]` deleter installed by the self-allocating
constructor. -/
def arrayDeleteTag : Nat := 1000

/-- Self-allocating constructor `unique_buffer(count, loc)`: `new T[count]`
yields a non-null address `a` (C++ guarantees `new T[0]` is non-null; failure
throws instead of returning null), and the deleter is `delete[]`. The fresh
address is a parameter of the model. -/
def self_alloc (a count : Nat) (loc : MemoryLocation) : UniqueBuffer :=
  { data_ := a, count_ := count, location_ := loc, deleter_ := some arrayDeleteTag }

/-- Constructor from a `released_buffer` (adopts all four fields). -/
def of_released (rb : ReleasedBuffer) : UniqueBuffer :=
  { data_ := rb.ptr, count_ := rb.count, location_ := rb.location,
    deleter_ := rb.deleter }

/-- `release()`: extract the state into a `released_buffer` and empty the
handle; the deleter is moved out, never invoked. -/
def release (b : UniqueBuffer) : ReleasedBuffer × UniqueBuffer :=
  (⟨b.data_, b.count_, b.deleter_, b.location_⟩, default_)

/-- `reset()`: if owning (`data_` non-null), invoke the deleter when present
and empty the view fields; the deleter member is cleared in every case. -/
def reset (b : UniqueBuffer) : UniqueBuffer × List DCall :=
  if b.data_ ≠ 0 then
    (default_,
     match b.deleter_ with
     | some d => [(d, b.data_)]
     | none => [])
  else
    ({ b with deleter_ := none }, [])

/-- `steal_from(other)`: the destination takes all four fields; the source
becomes the empty state. Returns (destination, source). -/
def steal_from (src : UniqueBuffer) : UniqueBuffer × UniqueBuffer :=
  (src, default_)

/-- Move constructor: `steal_from(std::move(other))`. -/
def move_ctor (src : UniqueBuffer) : UniqueBuffer × UniqueBuffer :=
  steal_from src

/-- Move assignment. `same` models the physical-identity test
`this == &other`; when the two references are the same object nothing
happens. Otherwise the destination is `reset()` (running its deleter if it
owns a buffer) and then steals the source's state.
Returns (destination, source, deleter calls). -/
def move_assign (same : Bool) (dest src : UniqueBuffer) :
    UniqueBuffer × UniqueBuffer × List DCall :=
  if same then (dest, src, [])
  else
    let (dest1, calls) := reset dest
    let (dest2, src2) := steal_from src
    let _ := dest1
    (dest2, src2, calls)

/-- Destructor: `~unique_buffer()` calls `reset()`. Returns the deleter
calls performed. -/
def dtor (b : UniqueBuffer) : List DCall := (reset b).2

/-- `swap(other)`: exchanges the full state. -/
def swap_ (a b : UniqueBuffer) : UniqueBuffer × UniqueBuffer := (b, a)

/-- `get()`. -/
def get (b : UniqueBuffer) : Nat := b.data_

/-- `operator bool`. -/
def toBool (b : UniqueBuffer) : Bool := b.data_ ≠ 0

/-- `operator==(nullptr)`. -/
def eqNullptr (b : UniqueBuffer) : Bool := b.data_ = 0

/-- `get_deleter()`. -/
def get_deleter (b : UniqueBuffer) : Option Nat := b.deleter_

/-- `view()`: non-owning snapshot of the three view fields. -/
def view (b : UniqueBuffer) : BufferBase :=
  { data_ := b.data_, count_ := b.count_, location_ := b.location_ }

end UniqueBuffer

/-- `shared_buffer<T>::control_block`: refcount plus the buffer fields. The
constructor initializes `ref` to 1; `ptr`, `size`, `deleter` and `location`
are never mutated while the block lives. -/
structure CtrlBlock where
  ref : Nat
  ptr : Nat
  size : Nat
  deleter : Option Nat
  location : MemoryLocation
  deriving DecidableEq, Repr

/-- The heap of control blocks: slot `id` holds `some blk` while block `id`
is live; `new` appends a slot, `delete` overwrites it with `none`. -/
abbrev World := List (Option CtrlBlock)

/-- `shared_buffer<T>`: holds `ctrl_`, a possibly-null control-block
reference (modelled as the block's heap id). -/
structure SharedBuffer where
  ctrl_ : Option Nat
  deriving DecidableEq, Repr

namespace SharedBuffer

/-- Default constructor: `ctrl_ = nullptr`. -/
def default_ : SharedBuffer := { ctrl_ := none }

/-- `shared_buffer(ptr, size, deleter, loc)`: stays empty when `ptr` is null
or `size` is 0; otherwise allocates one control block with refcount 1.
Returns (handle, heap). -/
def mk_ (ptr size : Nat) (deleter : Option Nat) (loc : MemoryLocation)
    (w : World) : SharedBuffer × World :=
  if ptr = 0 ∨ size = 0 then ({ ctrl_ := none }, w)
  else ({ ctrl_ := some w.length },
        w ++ [some { ref := 1, ptr := ptr, size := size, deleter := deleter,
                     location := loc }])

/-- `shared_buffer(released_buffer<T>)`: delegates to the main constructor. -/
def of_released (rb : ReleasedBuffer) (w : World) : SharedBuffer × World :=
  mk_ rb.ptr rb.count rb.deleter rb.location w

/-- `shared_buffer(unique_buffer<T>&&)`: releases the unique handle and
adopts the record. Returns (shared handle, emptied unique handle, heap). -/
def of_unique (u : UniqueBuffer) (w : World) :
    SharedBuffer × UniqueBuffer × World :=
  let (rb, u2) := u.release
  let (h, w2) := of_released rb w
  (h, u2, w2)

/-- Copy constructor: share the control block and `fetch_add(1)` the
refcount (no-op when empty; the C++ code never dereferences a dangling
`ctrl_`, so a missing slot is left unchanged). -/
def copy_ctor (h : SharedBuffer) (w : World) : SharedBuffer × World :=
  match h.ctrl_ with
  | none => (h, w)
  | some id =>
    match w[id]? with
    | some (some blk) => (h, w.set id (some { blk with ref := blk.ref + 1 }))
    | _ => (h, w)

/-- `release_ctrl()`: decrement the refcount with `fetch_sub(1)`; when the
previous value was 1 this owner was the last: invoke the deleter (if set)
on the stored pointer and delete the control block. Returns the heap after
the operation and the deleter calls performed; the caller's `ctrl_` is set
to null by the C++ code right after. -/
def release_ctrl (h : SharedBuffer) (w : World) : World × List DCall :=
  match h.ctrl_ with
  | none => (w, [])
  | some id =>
    match w[id]? with
    | some (some blk) =>
      if blk.ref = 1 then
        (w.set id none,
         match blk.deleter with
         | some d => [(d, blk.ptr)]
         | none => [])
      else (w.set id (some { blk with ref := blk.ref - 1 }), [])
    | _ => (w, [])

/-- Copy assignment between distinct objects: increment the new control
block's refcount first, then `release_ctrl()` the old one, then adopt.
Returns (destination, heap, deleter calls). -/
def copy_assign (dest src : SharedBuffer) (w : World) :
    SharedBuffer × World × List DCall :=
  let w1 :=
    match src.ctrl_ with
    | none => w
    | some id =>
      match w[id]? with
      | some (some blk) => w.set id (some { blk with ref := blk.ref + 1 })
      | _ => w
  let (w2, calls) := release_ctrl dest w1
  ({ ctrl_ := src.ctrl_ }, w2, calls)

/-- Move constructor: steal the control-block reference; the source becomes
empty. Returns (destination, source). -/
def move_ctor (src : SharedBuffer) : SharedBuffer × SharedBuffer :=
  (src, { ctrl_ := none })

/-- Move assignment between distinct objects: `release_ctrl()` the
destination, steal the reference, empty the source. -/
def move_assign (dest src : SharedBuffer) (w : World) :
    SharedBuffer × SharedBuffer × World × List DCall :=
  let (w2, calls) := release_ctrl dest w
  ({ ctrl_ := src.ctrl_ }, { ctrl_ := none }, w2, calls)

/-- `data()`. -/
def data (h : SharedBuffer) (w : World) : Nat :=
  match h.ctrl_ with
  | none => 0
  | some id =>
    match w[id]? with
    | some (some blk) => blk.ptr
    | _ => 0

/-- `size()`. -/
def size (h : SharedBuffer) (w : World) : Nat :=
  match h.ctrl_ with
  | none => 0
  | some id =>
    match w[id]? with
    | some (some blk) => blk.size
    | _ => 0

/-- `empty()`. -/
def empty (h : SharedBuffer) (w : World) : Bool := size h w = 0

/-- `location()`. -/
def location (h : SharedBuffer) (w : World) : MemoryLocation :=
  match h.ctrl_ with
  | none => MemoryLocation.Host
  | some id =>
    match w[id]? with
    | some (some blk) => blk.location
    | _ => MemoryLocation.Host

/-- `use_count()`. -/
def use_count (h : SharedBuffer) (w : World) : Nat :=
  match h.ctrl_ with
  | none => 0
  | some id =>
    match w[id]? with
    | some (some blk) => blk.ref
    | _ => 0

/-- `operator bool`. -/
def toBool (h : SharedBuffer) : Bool := h.ctrl_ ≠ none

/-- `release()`: empty handle fails. Otherwise attempt the single CAS
`ref: 1 → 0`; on success extract (ptr, size, deleter, location) into a
`released_buffer`, delete the control block (without invoking the deleter)
and empty the handle; on CAS failure return nothing and change nothing.
Returns (result, handle, heap, deleter calls). -/
def release (h : SharedBuffer) (w : World) :
    Option ReleasedBuffer × SharedBuffer × World × List DCall :=
  match h.ctrl_ with
  | none => (none, h, w, [])
  | some id =>
    match w[id]? with
    | some (some blk) =>
      if blk.ref = 1 then
        (some ⟨blk.ptr, blk.size, blk.deleter, blk.location⟩,
         { ctrl_ := none }, w.set id none, [])
      else (none, h, w, [])
    | _ => (none, h, w, [])

/-- `reset()`: `release_ctrl()` then null the reference. -/
def reset (h : SharedBuffer) (w : World) : SharedBuffer × World × List DCall :=
  let (w2, calls) := release_ctrl h w
  ({ ctrl_ := none }, w2, calls)

/-- Destructor: `release_ctrl()`. -/
def dtor (h : SharedBuffer) (w : World) : World × List DCall :=
  release_ctrl h w

/-- `swap(other)`: exchanges the control-block references. -/
def swap_ (a b : SharedBuffer) : SharedBuffer × SharedBuffer := (b, a)

end SharedBuffer

/-- Failure kinds of `MemPool` (`std::invalid_argument` from the
constructor, `std::runtime_error("MemPool: out of buffers")` from
`allocate`). -/
inductive PoolError where
  | invalidArgument
  | resourceExhausted
  deriving DecidableEq, Repr

/-- Identity tag for the pool's block-returning deleter
(`[this](T *p) { this->release_block(p); }`). -/
def poolDeleteTag : Nat := 2000

/-- `MemPool<T, Alignment>`: geometry fields plus the free-list stack.
`sizeofT` and `alignment` are the template parameters `sizeof(T)` and
`Alignment`; `data_` is the byte address returned by `aligned_alloc`;
`free_blocks_` holds block start byte addresses, the last element being the
top of the stack (`back()`). -/
structure MemPool where
  sizeofT : Nat
  alignment : Nat
  block_size_ : Nat
  stride_ : Nat
  block_count_ : Nat
  location_ : MemoryLocation
  data_ : Nat
  free_blocks_ : List Nat
  deriving DecidableEq, Repr

namespace MemPool

/-- The stride computation of the constructor:
`aligned_byte_size = (byte_size + Alignment - 1) / Alignment * Alignment`
(integer division), then `stride_ = aligned_byte_size / sizeof(T)`. -/
def computeStride (sizeofT alignment block_size : Nat) : Nat :=
  let byte_size := block_size * sizeofT
  let aligned_byte_size := (byte_size + alignment - 1) / alignment * alignment
  aligned_byte_size / sizeofT

/-- `MemPool(block_size, block_count, loc)`: throws `invalid_argument` when
either is 0; otherwise computes the stride and builds the free list with
block `i` at byte address `base + i * stride_ * sizeof(T)`, pushed in
ascending index order. `base` is the (alignment-correct, non-null) address
produced by `aligned_alloc`. -/
def mk_ (sizeofT alignment block_size block_count : Nat)
    (loc : MemoryLocation) (base : Nat) : Except PoolError MemPool :=
  if block_size = 0 ∨ block_count = 0 then Except.error PoolError.invalidArgument
  else
    let stride := computeStride sizeofT alignment block_size
    Except.ok
      { sizeofT := sizeofT, alignment := alignment,
        block_size_ := block_size, stride_ := stride,
        block_count_ := block_count, location_ := loc, data_ := base,
        free_blocks_ :=
          (List.range block_count).map (fun i => base + i * stride * sizeofT) }

/-- `allocate()`: under the lock, fail with `runtime_error` if the free list
is empty (the pool is unchanged); otherwise pop the back of the stack and
wrap it in a `unique_buffer` of `block_size_` elements whose deleter returns
the block to this pool. -/
def allocate (p : MemPool) : Except PoolError UniqueBuffer × MemPool :=
  match p.free_blocks_.getLast? with
  | none => (Except.error PoolError.resourceExhausted, p)
  | some ptr =>
    (Except.ok (UniqueBuffer.mk_ ptr p.block_size_ (some poolDeleteTag)
        p.location_),
     { p with free_blocks_ := p.free_blocks_.dropLast })

/-- `release_block(p)`: push the address back on the free-list stack. This
is the body of the deleter carried by every buffer the pool issues. -/
def release_block (p : MemPool) (ptr : Nat) : MemPool :=
  { p with free_blocks_ := p.free_blocks_ ++ [ptr] }

/-- `block_size()`. -/
def block_size (p : MemPool) : Nat := p.block_size_

/-- `capacity()`. -/
def capacity (p : MemPool) : Nat := p.block_count_

/-- `available()`. -/
def available (p : MemPool) : Nat := p.free_blocks_.length

end MemPool

/-- The View invariant of the spec: the pointer is null exactly when the
count is zero, read on a `unique_buffer`'s view fields. -/
def UniqueBuffer.viewInv (b : UniqueBuffer) : Prop := b.data_ = 0 ↔ b.count_ = 0

/-- The View invariant on a `buffer_base` value. -/
def BufferBase.viewInv (v : BufferBase) : Prop := v.data_ = 0 ↔ v.count_ = 0

/-- C5: unique-handle move construction and move assignment transfer
(ptr, count, location, deleter) from source to destination and leave the
source in the empty state (null pointer, count 0, Host, no deleter); the
moved-from source converts to `false`, compares equal to `nullptr`, and its
destruction invokes no deleter; move self-assignment is a no-op; move
assignment into a handle that owns a buffer first invokes that buffer's
deleter, and into a non-owning handle invokes none. -/
theorem unique_move_transfer (dest src b : UniqueBuffer) (d : Nat)
    (hown : dest.data_ ≠ 0) (hdel : dest.deleter_ = some d) :
    UniqueBuffer.move_ctor src = (src, UniqueBuffer.default_) ∧
    UniqueBuffer.toBool UniqueBuffer.default_ = false ∧
    UniqueBuffer.eqNullptr UniqueBuffer.default_ = true ∧
    UniqueBuffer.dtor UniqueBuffer.default_ = [] ∧
    UniqueBuffer.move_assign true b b = (b, b, []) ∧
    UniqueBuffer.move_assign false dest src =
      (src, UniqueBuffer.default_, [(d, dest.data_)]) ∧
    (∀ e : UniqueBuffer, e.data_ = 0 →
      UniqueBuffer.move_assign false e src = (src, UniqueBuffer.default_, [])) := by
  refine ⟨rfl, rfl, rfl, rfl, rfl, ?_, ?_⟩
  · simp [UniqueBuffer.move_assign, UniqueBuffer.reset, UniqueBuffer.steal_from,
      hown, hdel]
  · intro e he
    simp [UniqueBuffer.move_assign, UniqueBuffer.reset, UniqueBuffer.steal_from, he]

/-- Witness for `unique_move_transfer` at a concrete owning destination. -/
theorem unique_move_transfer_witness :
    UniqueBuffer.move_assign false
        (UniqueBuffer.mk_ 5 2 (some 7) MemoryLocation.Host)
        (UniqueBuffer.mk_ 9 3 (some 8) MemoryLocation.Device) =
      (UniqueBuffer.mk_ 9 3 (some 8) MemoryLocation.Device,
       UniqueBuffer.default_, [(7, 5)]) :=
  (unique_move_transfer (UniqueBuffer.mk_ 5 2 (some 7) MemoryLocation.Host)
    (UniqueBuffer.mk_ 9 3 (some 8) MemoryLocation.Device)
    UniqueBuffer.default_ 7 (by decide) rfl).2.2.2.2.2.1

/-- C4: for a non-empty unique handle with a deleter, `release()` followed
by reconstructing a unique handle from the record preserves the pointer,
count and location (and the deleter), and across the full lifetime —
destroying the released original and, later, the reconstructed handle — the
original deleter runs exactly once, on the original pointer. -/
theorem unique_release_roundtrip (b : UniqueBuffer) (d : Nat)
    (hne : b.data_ ≠ 0) (hdel : b.deleter_ = some d) :
    (b.release).1.ptr = b.data_ ∧
    (b.release).1.count = b.count_ ∧
    (b.release).1.location = b.location_ ∧
    (UniqueBuffer.of_released (b.release).1).data_ = b.data_ ∧
    (UniqueBuffer.of_released (b.release).1).count_ = b.count_ ∧
    (UniqueBuffer.of_released (b.release).1).location_ = b.location_ ∧
    (UniqueBuffer.of_released (b.release).1).deleter_ = b.deleter_ ∧
    UniqueBuffer.dtor (b.release).2 ++
      UniqueBuffer.dtor (UniqueBuffer.of_released (b.release).1) =
      [(d, b.data_)] := by
  refine ⟨rfl, rfl, rfl, rfl, rfl, rfl, rfl, ?_⟩
  simp [UniqueBuffer.release, UniqueBuffer.of_released, UniqueBuffer.dtor,
    UniqueBuffer.reset, UniqueBuffer.default_, hne, hdel]

/-- Witness for `unique_release_roundtrip` at a concrete handle. -/
theorem unique_release_roundtrip_witness :
    UniqueBuffer.dtor ((UniqueBuffer.mk_ 5 2 (some 7) MemoryLocation.Device).release).2 ++
      UniqueBuffer.dtor (UniqueBuffer.of_released
        ((UniqueBuffer.mk_ 5 2 (some 7) MemoryLocation.Device).release).1) =
      [(7, 5)] :=
  (unique_release_roundtrip (UniqueBuffer.mk_ 5 2 (some 7) MemoryLocation.Device)
    7 (by decide) rfl).2.2.2.2.2.2.2

/-- C8 counterexample: the self-allocating constructor with count 0 stores
the non-null address returned by `new T[0]` (here 4) together with count 0,
violating the View invariant `ptr == null ⇔ count == 0`. -/
theorem unique_view_invariant_counterexample :
    ¬ (UniqueBuffer.self_alloc 4 0 MemoryLocation.Host).viewInv := by
  simp [UniqueBuffer.viewInv, UniqueBuffer.self_alloc]

/-- C8 (amended): the View invariant `ptr == null ⇔ count == 0` is
established by the self-allocating constructor when the count is positive,
by the adopting constructors when the arguments themselves satisfy it, and
is preserved by move construction and assignment (both sides), `release()`
(both the record and the emptied handle), `reset()`, `swap()` and `view()`. -/
theorem unique_view_invariant (a ptr count : Nat) (d : Option Nat)
    (loc : MemoryLocation) (b c : UniqueBuffer) (rb : ReleasedBuffer) :
    (a ≠ 0 → count ≠ 0 → (UniqueBuffer.self_alloc a count loc).viewInv) ∧
    ((ptr = 0 ↔ count = 0) → (UniqueBuffer.mk_ ptr count d loc).viewInv) ∧
    ((rb.ptr = 0 ↔ rb.count = 0) → (UniqueBuffer.of_released rb).viewInv) ∧
    (b.viewInv →
      (UniqueBuffer.move_ctor b).1.viewInv ∧ (UniqueBuffer.move_ctor b).2.viewInv) ∧
    (b.viewInv → c.viewInv → ∀ s : Bool,
      (UniqueBuffer.move_assign s b c).1.viewInv ∧
      (UniqueBuffer.move_assign s b c).2.1.viewInv) ∧
    (b.viewInv →
      ((b.release).1.ptr = 0 ↔ (b.release).1.count = 0) ∧ (b.release).2.viewInv) ∧
    (b.viewInv → (b.reset).1.viewInv) ∧
    (b.viewInv → c.viewInv →
      (UniqueBuffer.swap_ b c).1.viewInv ∧ (UniqueBuffer.swap_ b c).2.viewInv) ∧
    (b.viewInv → (b.view).viewInv) := by
  have hdef : UniqueBuffer.default_.viewInv := by
    simp [UniqueBuffer.viewInv, UniqueBuffer.default_]
  refine ⟨?_, ?_, ?_, ?_, ?_, ?_, ?_, ?_, ?_⟩
  · intro ha hc
    simp [UniqueBuffer.viewInv, UniqueBuffer.self_alloc, ha, hc]
  · intro hargs
    simpa [UniqueBuffer.viewInv, UniqueBuffer.mk_] using hargs
  · intro hargs
    simpa [UniqueBuffer.viewInv, UniqueBuffer.of_released] using hargs
  · intro hb
    exact ⟨hb, hdef⟩
  · intro hb hc s
    cases s
    · simp only [UniqueBuffer.move_assign, UniqueBuffer.steal_from,
        Bool.false_eq_true, if_false]
      exact ⟨hc, hdef⟩
    · simpa [UniqueBuffer.move_assign] using ⟨hb, hc⟩
  · intro hb
    exact ⟨hb, hdef⟩
  · intro hb
    by_cases hd : b.data_ ≠ 0
    · simpa [UniqueBuffer.reset, hd] using hdef
    · simpa [UniqueBuffer.reset, hd, UniqueBuffer.viewInv] using hb
  · intro hb hc
    exact ⟨hc, hb⟩
  · intro hb
    exact hb

/-- Witness for `unique_view_invariant`: self-allocation of 2 elements at
the concrete fresh address 4 satisfies the invariant. -/
theorem unique_view_invariant_witness :
    (UniqueBuffer.self_alloc 4 2 MemoryLocation.Host).viewInv :=
  (unique_view_invariant 4 0 2 none MemoryLocation.Host UniqueBuffer.default_
    UniqueBuffer.default_ ⟨0, 0, none, MemoryLocation.Host⟩).1
    (by decide) (by decide)

/-- C9 counterexample: a unique handle constructed with a null pointer and
zero count but a present deleter stores that deleter — observable through
`get_deleter()` (and carried out by `release()`) — unlike a
default-constructed handle, which holds none. -/
theorem unique_null_ctor_counterexample :
    UniqueBuffer.get_deleter
        (UniqueBuffer.mk_ 0 0 (some 7) MemoryLocation.Host) = some 7 ∧
    UniqueBuffer.get_deleter UniqueBuffer.default_ = none ∧
    ((UniqueBuffer.mk_ 0 0 (some 7) MemoryLocation.Host).release).1.deleter =
      some 7 :=
  ⟨rfl, rfl, rfl⟩

/-- C9 (amended): a shared handle constructed with a null pointer or zero
count allocates no control block and equals a default-constructed handle
(so it holds no deleter); a unique handle constructed with a null pointer
and zero count matches the default in boolean conversion, pointer, count
and (defaulted) location, and its teardown never invokes a deleter, but it
stores the deleter argument, observable through `get_deleter()`. -/
theorem null_zero_ctor_behaviour (p n : Nat) (d : Option Nat)
    (loc : MemoryLocation) (w : World) :
    SharedBuffer.mk_ 0 n d loc w = (SharedBuffer.default_, w) ∧
    SharedBuffer.mk_ p 0 d loc w = (SharedBuffer.default_, w) ∧
    SharedBuffer.data SharedBuffer.default_ w = 0 ∧
    SharedBuffer.size SharedBuffer.default_ w = 0 ∧
    SharedBuffer.use_count SharedBuffer.default_ w = 0 ∧
    SharedBuffer.location SharedBuffer.default_ w = MemoryLocation.Host ∧
    SharedBuffer.toBool SharedBuffer.default_ = false ∧
    (UniqueBuffer.mk_ 0 0 d loc).data_ = UniqueBuffer.default_.data_ ∧
    (UniqueBuffer.mk_ 0 0 d loc).count_ = UniqueBuffer.default_.count_ ∧
    UniqueBuffer.toBool (UniqueBuffer.mk_ 0 0 d loc) = false ∧
    UniqueBuffer.eqNullptr (UniqueBuffer.mk_ 0 0 d loc) = true ∧
    (UniqueBuffer.mk_ 0 0 d loc).location_ = loc ∧
    UniqueBuffer.get_deleter (UniqueBuffer.mk_ 0 0 d loc) = d ∧
    UniqueBuffer.dtor (UniqueBuffer.mk_ 0 0 d loc) = [] := by
  refine ⟨?_, ?_, rfl, rfl, rfl, rfl, rfl, rfl, rfl, rfl, rfl, rfl, rfl, rfl⟩
  · simp [SharedBuffer.mk_, SharedBuffer.default_]
  · simp [SharedBuffer.mk_, SharedBuffer.default_]

/-- C1: shared-handle `release()` succeeds exactly when the refcount is
observed as 1 (the CAS `1 → 0`): on success the returned record carries the
pre-release control-block contents (ptr, size, deleter, location), the
handle becomes empty, the control block is freed (its heap slot is
cleared) and no deleter is invoked; on failure — an empty handle, or a
refcount other than 1 — it returns no value and handle and heap are
unchanged. -/
theorem shared_release_unique_owner (h : SharedBuffer) (w : World) (id : Nat)
    (blk : CtrlBlock) :
    (h.ctrl_ = none → SharedBuffer.release h w = (none, h, w, [])) ∧
    (h.ctrl_ = some id → w[id]? = some (some blk) →
      ((SharedBuffer.release h w).1.isSome ↔ SharedBuffer.use_count h w = 1) ∧
      (blk.ref = 1 →
        SharedBuffer.release h w =
          (some ⟨blk.ptr, blk.size, blk.deleter, blk.location⟩,
           SharedBuffer.default_, w.set id none, [])) ∧
      (blk.ref ≠ 1 → SharedBuffer.release h w = (none, h, w, []))) := by
  constructor
  · intro hn
    simp [SharedBuffer.release, hn]
  · intro hc hw
    by_cases h1 : blk.ref = 1
    · simp [SharedBuffer.release, SharedBuffer.use_count, SharedBuffer.default_,
        hc, hw, h1]
    · simp [SharedBuffer.release, SharedBuffer.use_count, hc, hw, h1]

/-- Witness for `shared_release_unique_owner`: a unique owner (refcount 1)
releases successfully; the record carries the block's contents, the handle
empties, the block's slot is freed, and no deleter call is recorded. -/
theorem shared_release_unique_owner_witness :
    SharedBuffer.release ⟨some 0⟩
        [some ⟨1, 5, 2, some 7, MemoryLocation.Host⟩] =
      (some ⟨5, 2, some 7, MemoryLocation.Host⟩, SharedBuffer.default_,
       [none], []) :=
  ((shared_release_unique_owner ⟨some 0⟩
      [some ⟨1, 5, 2, some 7, MemoryLocation.Host⟩] 0
      ⟨1, 5, 2, some 7, MemoryLocation.Host⟩).2 rfl rfl).2.1 rfl

/-- C7: copying a non-empty shared handle makes `use_count()` on both the
original and the copy exactly one greater than the pre-copy value;
destroying (or resetting) the copy brings it back down by exactly one with
no deleter call; and, because copy assignment increments the new control
block's refcount before decrementing the previously held one, assigning
between two handles of the same lineage leaves the block alive with its
refcount unchanged and runs no deleter. -/
theorem shared_copy_refcount (h dest : SharedBuffer) (w : World) (id : Nat)
    (blk : CtrlBlock) (hc : h.ctrl_ = some id) (hw : w[id]? = some (some blk))
    (href : 1 ≤ blk.ref) :
    (SharedBuffer.copy_ctor h w).1 = h ∧
    SharedBuffer.use_count h (SharedBuffer.copy_ctor h w).2 = blk.ref + 1 ∧
    SharedBuffer.use_count (SharedBuffer.copy_ctor h w).1
      (SharedBuffer.copy_ctor h w).2 = blk.ref + 1 ∧
    SharedBuffer.use_count h
      (SharedBuffer.dtor (SharedBuffer.copy_ctor h w).1
        (SharedBuffer.copy_ctor h w).2).1 = blk.ref ∧
    (SharedBuffer.dtor (SharedBuffer.copy_ctor h w).1
      (SharedBuffer.copy_ctor h w).2).2 = [] ∧
    SharedBuffer.use_count h
      (SharedBuffer.reset (SharedBuffer.copy_ctor h w).1
        (SharedBuffer.copy_ctor h w).2).2.1 = blk.ref ∧
    (dest.ctrl_ = some id →
      (SharedBuffer.copy_assign dest h w).1 = h ∧
      ((SharedBuffer.copy_assign dest h w).2.1)[id]? = some (some blk) ∧
      (SharedBuffer.copy_assign dest h w).2.2 = []) := by
  have hid : id < w.length := (List.getElem?_eq_some.mp hw).1
  have hset : (w.set id (some { blk with ref := blk.ref + 1 }))[id]? =
      some (some { blk with ref := blk.ref + 1 }) := by
    rw [List.getElem?_set]
    simp [hid]
  have hne1 : blk.ref + 1 ≠ 1 := by omega
  have hetab : { blk with ref := blk.ref + 1 - 1 } = blk := by
    simp
  have hcopy : SharedBuffer.copy_ctor h w =
      (h, w.set id (some { blk with ref := blk.ref + 1 })) := by
    simp [SharedBuffer.copy_ctor, hc, hw]
  refine ⟨?_, ?_, ?_, ?_, ?_, ?_, ?_⟩
  · rw [hcopy]
  · rw [hcopy]
    simp [SharedBuffer.use_count, hc, hset]
  · rw [hcopy]
    simp [SharedBuffer.use_count, hc, hset]
  · rw [hcopy]
    simp only [SharedBuffer.dtor, SharedBuffer.release_ctrl, hc, hset,
      if_neg hne1]
    rw [List.set_set]
    simp [SharedBuffer.use_count, hc, hetab]
    rw [List.getElem?_set]
    simp [hid, hetab]
  · rw [hcopy]
    simp [SharedBuffer.dtor, SharedBuffer.release_ctrl, hc, hset, hne1]
  · rw [hcopy]
    simp only [SharedBuffer.reset, SharedBuffer.release_ctrl, hc, hset,
      if_neg hne1]
    rw [List.set_set]
    simp [SharedBuffer.use_count, hc, hetab]
    rw [List.getElem?_set]
    simp [hid, hetab]
  · intro hd
    have hda : dest = ⟨some id⟩ := by
      cases dest
      simpa using hd
    have hha : h = ⟨some id⟩ := by
      cases h
      simpa using hc
    subst hda hha
    refine ⟨rfl, ?_, ?_⟩
    · simp only [SharedBuffer.copy_assign, SharedBuffer.release_ctrl, hw, hset,
        if_neg hne1]
      rw [List.set_set]
      rw [List.getElem?_set]
      simp [hid, hetab]
    · simp [SharedBuffer.copy_assign, SharedBuffer.release_ctrl, hw, hset, hne1]

/-- Witness for `shared_copy_refcount`: a concrete lineage with refcount 2;
after copy construction both handles observe 3. -/
theorem shared_copy_refcount_witness :
    SharedBuffer.use_count ⟨some 0⟩
      (SharedBuffer.copy_ctor ⟨some 0⟩
        [some ⟨2, 5, 3, some 7, MemoryLocation.Host⟩]).2 = 3 :=
  (shared_copy_refcount ⟨some 0⟩ ⟨some 0⟩
    [some ⟨2, 5, 3, some 7, MemoryLocation.Host⟩] 0
    ⟨2, 5, 3, some 7, MemoryLocation.Host⟩ rfl rfl (by decide)).2.1

/-- Well-formedness of a live control block: created only with a non-null
pointer, a positive size, and refcount 1, and every surviving update keeps
the refcount at least 1. -/
def CtrlBlock.wf (blk : CtrlBlock) : Prop :=
  blk.ptr ≠ 0 ∧ 0 < blk.size ∧ 1 ≤ blk.ref

/-- Heap invariant: every live control block is well formed. -/
def WOk (w : World) : Prop := ∀ blk : CtrlBlock, some blk ∈ w → blk.wf

/-- Handle validity: a non-null control reference points at a live block. -/
def SharedBuffer.valid (h : SharedBuffer) (w : World) : Prop :=
  ∀ id, h.ctrl_ = some id → ∃ blk, w[id]? = some (some blk)

theorem wok_set_none {w : World} {id : Nat} (hw : WOk w) :
    WOk (w.set id none) := by
  intro blk hmem
  rcases List.mem_or_eq_of_mem_set hmem with hin | hx
  · exact hw blk hin
  · exact absurd hx (by simp)

theorem wok_set_wf {w : World} {id : Nat} {blk : CtrlBlock} (hw : WOk w)
    (hblk : blk.wf) : WOk (w.set id (some blk)) := by
  intro b hmem
  rcases List.mem_or_eq_of_mem_set hmem with hin | hx
  · exact hw b hin
  · obtain rfl : b = blk := by simpa using hx
    exact hblk

theorem wok_append {w : World} {blk : CtrlBlock} (hw : WOk w)
    (hblk : blk.wf) : WOk (w ++ [some blk]) := by
  intro b hmem
  rcases List.mem_append.mp hmem with hin | hx
  · exact hw b hin
  · obtain rfl : b = blk := by simpa using hx
    exact hblk

theorem wok_release_ctrl {h : SharedBuffer} {w : World} (hw : WOk w) :
    WOk (SharedBuffer.release_ctrl h w).1 := by
  cases hc : h.ctrl_ with
  | none => simpa [SharedBuffer.release_ctrl, hc] using hw
  | some id =>
    cases hlook : w[id]? with
    | none => simpa [SharedBuffer.release_ctrl, hc, hlook] using hw
    | some o =>
      cases o with
      | none => simpa [SharedBuffer.release_ctrl, hc, hlook] using hw
      | some blk =>
        have hblk : blk.wf := hw blk (List.getElem?_mem hlook)
        by_cases h1 : blk.ref = 1
        · simp only [SharedBuffer.release_ctrl, hc, hlook, h1, if_true]
          exact wok_set_none hw
        · simp only [SharedBuffer.release_ctrl, hc, hlook, h1, if_false]
          apply wok_set_wf hw
          refine ⟨hblk.1, hblk.2.1, ?_⟩
          show 1 ≤ blk.ref - 1
          have h2 : 1 ≤ blk.ref := hblk.2.2
          omega

theorem wok_bump {w : World} {id : Nat} (hw : WOk w) :
    WOk (match w[id]? with
         | some (some blk) => w.set id (some { blk with ref := blk.ref + 1 })
         | _ => w) := by
  cases hlook : w[id]? with
  | none => simpa [hlook] using hw
  | some o =>
    cases o with
    | none => simpa [hlook] using hw
    | some blk =>
      have hblk : blk.wf := hw blk (List.getElem?_mem hlook)
      simp only [hlook]
      apply wok_set_wf hw
      refine ⟨hblk.1, hblk.2.1, ?_⟩
      show 1 ≤ blk.ref + 1
      omega

theorem wok_copy_ctor {h : SharedBuffer} {w : World} (hw : WOk w) :
    WOk (SharedBuffer.copy_ctor h w).2 := by
  cases hc : h.ctrl_ with
  | none => simpa [SharedBuffer.copy_ctor, hc] using hw
  | some id =>
    cases hlook : w[id]? with
    | none => simpa [SharedBuffer.copy_ctor, hc, hlook] using hw
    | some o =>
      cases o with
      | none => simpa [SharedBuffer.copy_ctor, hc, hlook] using hw
      | some blk =>
        have hblk : blk.wf := hw blk (List.getElem?_mem hlook)
        simp only [SharedBuffer.copy_ctor, hc, hlook]
        apply wok_set_wf hw
        refine ⟨hblk.1, hblk.2.1, ?_⟩
        show 1 ≤ blk.ref + 1
        omega

/-- C10: the shared-handle control-block invariant. A control block is
allocated only for a non-null pointer and positive size (null or zero-size
construction touches nothing), every operation — construct, copy construct,
copy assign, move assign, release, reset — preserves the heap invariant
that all live blocks have non-null pointer, positive size and refcount at
least 1, the handles the operations produce stay valid, and under the
invariant the emptiness observers of every valid handle agree:
`empty()`, negated boolean conversion, `data() == nullptr` and
`use_count() == 0` are all equivalent. -/
theorem shared_observer_agreement (h h2 : SharedBuffer) (w : World)
    (ptr size : Nat) (d : Option Nat) (loc : MemoryLocation) :
    (WOk w → ptr = 0 ∨ size = 0 → SharedBuffer.mk_ ptr size d loc w = (⟨none⟩, w)) ∧
    (WOk w →
      WOk (SharedBuffer.mk_ ptr size d loc w).2 ∧
      SharedBuffer.valid (SharedBuffer.mk_ ptr size d loc w).1
        (SharedBuffer.mk_ ptr size d loc w).2) ∧
    (WOk w → WOk (SharedBuffer.copy_ctor h w).2) ∧
    (WOk w → WOk (SharedBuffer.copy_assign h2 h w).2.1) ∧
    (WOk w → WOk (SharedBuffer.move_assign h2 h w).2.2.1) ∧
    (WOk w → WOk (SharedBuffer.release h w).2.2.1) ∧
    (WOk w → WOk (SharedBuffer.reset h w).2.1) ∧
    (WOk w → h.valid w →
      ((SharedBuffer.empty h w = true ↔ SharedBuffer.toBool h = false) ∧
       (SharedBuffer.empty h w = true ↔ SharedBuffer.data h w = 0) ∧
       (SharedBuffer.empty h w = true ↔ SharedBuffer.use_count h w = 0))) := by
  refine ⟨?_, ?_, ?_, ?_, ?_, ?_, ?_, ?_⟩
  · intro _ hz
    simp [SharedBuffer.mk_, hz]
  · intro hw
    unfold SharedBuffer.mk_
    by_cases hz : ptr = 0 ∨ size = 0
    · simp only [hz, if_true]
      exact ⟨hw, by intro id hid; simp at hid⟩
    · simp only [hz, if_false]
      push_neg at hz
      constructor
      · exact wok_append hw ⟨hz.1, Nat.pos_of_ne_zero hz.2, le_refl 1⟩
      · intro id hid
        simp only at hid
        obtain rfl : id = w.length := by simpa using hid.symm
        refine ⟨⟨1, ptr, size, d, loc⟩, ?_⟩
        rw [List.getElem?_append_right (le_refl _)]
        simp
  · intro hw
    exact wok_copy_ctor hw
  · intro hw
    cases hc : h.ctrl_ with
    | none =>
      simp only [SharedBuffer.copy_assign, hc]
      exact wok_release_ctrl hw
    | some id =>
      simp only [SharedBuffer.copy_assign, hc]
      exact wok_release_ctrl (wok_bump hw)
  · intro hw
    simp only [SharedBuffer.move_assign]
    exact wok_release_ctrl hw
  · intro hw
    cases hc : h.ctrl_ with
    | none => simpa [SharedBuffer.release, hc] using hw
    | some id =>
      cases hlook : w[id]? with
      | none => simpa [SharedBuffer.release, hc, hlook] using hw
      | some o =>
        cases o with
        | none => simpa [SharedBuffer.release, hc, hlook] using hw
        | some blk =>
          by_cases h1 : blk.ref = 1
          · simp only [SharedBuffer.release, hc, hlook, h1, if_true]
            exact wok_set_none hw
          · simpa [SharedBuffer.release, hc, hlook, h1] using hw
  · intro hw
    simp only [SharedBuffer.reset]
    exact wok_release_ctrl hw
  · intro hw hv
    cases hc : h.ctrl_ with
    | none =>
      simp [SharedBuffer.empty, SharedBuffer.size, SharedBuffer.toBool,
        SharedBuffer.data, SharedBuffer.use_count, hc]
    | some id =>
      obtain ⟨blk, hlook⟩ := hv id hc
      have hblk : blk.wf := hw blk (List.getElem?_mem hlook)
      have h1 : blk.ptr ≠ 0 := hblk.1
      have h2 : blk.size ≠ 0 := Nat.pos_iff_ne_zero.mp hblk.2.1
      have h3 : blk.ref ≠ 0 := by
        have := hblk.2.2
        omega
      simp [SharedBuffer.empty, SharedBuffer.size, SharedBuffer.toBool,
        SharedBuffer.data, SharedBuffer.use_count, hc, hlook, h1, h2, h3]

/-- Witness for `shared_observer_agreement`: on a concrete one-block heap
the four emptiness observers of the owning handle agree (all are false). -/
theorem shared_observer_agreement_witness :
    (SharedBuffer.empty ⟨some 0⟩ [some ⟨1, 5, 2, none, MemoryLocation.Host⟩] = true ↔
      SharedBuffer.toBool ⟨some 0⟩ = false) ∧
    (SharedBuffer.empty ⟨some 0⟩ [some ⟨1, 5, 2, none, MemoryLocation.Host⟩] = true ↔
      SharedBuffer.data ⟨some 0⟩ [some ⟨1, 5, 2, none, MemoryLocation.Host⟩] = 0) ∧
    (SharedBuffer.empty ⟨some 0⟩ [some ⟨1, 5, 2, none, MemoryLocation.Host⟩] = true ↔
      SharedBuffer.use_count ⟨some 0⟩ [some ⟨1, 5, 2, none, MemoryLocation.Host⟩] = 0) :=
  (shared_observer_agreement ⟨some 0⟩ ⟨none⟩
    [some ⟨1, 5, 2, none, MemoryLocation.Host⟩] 0 0 none
    MemoryLocation.Host).2.2.2.2.2.2.2
    (by
      intro blk hmem
      rw [List.mem_singleton] at hmem
      obtain rfl : blk = ⟨1, 5, 2, none, MemoryLocation.Host⟩ := by
        simpa using hmem
      exact ⟨by decide, by decide, by decide⟩)
    (by
      intro id hid
      obtain rfl : id = 0 := by simpa using hid.symm
      exact ⟨⟨1, 5, 2, none, MemoryLocation.Host⟩, rfl⟩)

/-- C6: with every block leased (empty free list) `allocate()` fails with
ResourceExhausted and the pool is unchanged; after one block is returned
through the handle's deleter (`release_block`), the next `allocate()`
succeeds; and the free list is LIFO — an `allocate()` immediately after
freeing address A returns A, with the pool state restored. -/
theorem pool_exhaustion_and_lifo (p q : MemPool) (A : Nat)
    (hempty : p.free_blocks_ = []) :
    MemPool.allocate p = (Except.error PoolError.resourceExhausted, p) ∧
    MemPool.allocate (MemPool.release_block q A) =
      (Except.ok (UniqueBuffer.mk_ A q.block_size_ (some poolDeleteTag)
        q.location_), q) := by
  constructor
  · simp [MemPool.allocate, hempty]
  · simp [MemPool.allocate, MemPool.release_block, List.getLast?_concat,
      List.dropLast_concat]

/-- Witness for `pool_exhaustion_and_lifo`: a concrete exhausted pool. -/
theorem pool_exhaustion_and_lifo_witness :
    MemPool.allocate
        ⟨1, 64, 4, 64, 2, MemoryLocation.Host, 256, ([] : List Nat)⟩ =
      (Except.error PoolError.resourceExhausted,
       ⟨1, 64, 4, 64, 2, MemoryLocation.Host, 256, ([] : List Nat)⟩) :=
  (pool_exhaustion_and_lifo
    ⟨1, 64, 4, 64, 2, MemoryLocation.Host, 256, ([] : List Nat)⟩
    ⟨1, 64, 4, 64, 2, MemoryLocation.Host, 256, ([] : List Nat)⟩
    320 rfl).1

/-- Concrete pool states of the §8.9 scenario: 1-byte elements, alignment
128, block_size 100, block_count 3, base `D`, with the given free list. -/
def scenarioPool (D : Nat) (free : List Nat) : MemPool :=
  { sizeofT := 1, alignment := 128, block_size_ := 100, stride_ := 128,
    block_count_ := 3, location_ := MemoryLocation.Host, data_ := D,
    free_blocks_ := free }

/-- C3 counterexample: at base 1280 (a multiple of 128) the first two
`allocate()` calls return 1536 and then 1408 — the free list is popped
from the back — so no base `D` satisfies the claimed order
`D, D + 128, D + 256`. -/
theorem pool_scenario_counterexample :
    MemPool.mk_ 1 128 100 3 MemoryLocation.Host 1280 =
      Except.ok (scenarioPool 1280 [1280, 1408, 1536]) ∧
    (MemPool.allocate (scenarioPool 1280 [1280, 1408, 1536])).1 =
      Except.ok (UniqueBuffer.mk_ 1536 100 (some poolDeleteTag)
        MemoryLocation.Host) ∧
    (MemPool.allocate
        (MemPool.allocate (scenarioPool 1280 [1280, 1408, 1536])).2).1 =
      Except.ok (UniqueBuffer.mk_ 1408 100 (some poolDeleteTag)
        MemoryLocation.Host) ∧
    ¬ ∃ Dv : Nat, Dv % 128 = 0 ∧
        (MemPool.allocate (scenarioPool 1280 [1280, 1408, 1536])).1 =
          Except.ok (UniqueBuffer.mk_ Dv 100 (some poolDeleteTag)
            MemoryLocation.Host) ∧
        (MemPool.allocate
            (MemPool.allocate (scenarioPool 1280 [1280, 1408, 1536])).2).1 =
          Except.ok (UniqueBuffer.mk_ (Dv + 128) 100 (some poolDeleteTag)
            MemoryLocation.Host) := by
  refine ⟨?_, rfl, rfl, ?_⟩
  · simp [MemPool.mk_, MemPool.computeStride, scenarioPool, List.range_succ]
  · rintro ⟨Dv, -, h1, h2⟩
    have e1 : (1536 : Nat) = Dv := by
      simpa [MemPool.allocate, scenarioPool, UniqueBuffer.mk_] using h1
    have e2 : (1408 : Nat) = Dv + 128 := by
      simpa [MemPool.allocate, scenarioPool, UniqueBuffer.mk_] using h2
    omega

/-- C3 (amended): in the scenario (1-byte elements, alignment 128,
block_size 100, block_count 3, aligned base D) the stride is 128 and the
free list is built as [D, D+128, D+256]; the three sequential `allocate()`
calls return D+256, D+128, D in that order (all 128-aligned), the fourth
fails with ResourceExhausted, and after returning the first allocated
block (address D+256) the next `allocate()` returns D+256 again. -/
theorem pool_scenario (D : Nat) (hD : D % 128 = 0) :
    MemPool.mk_ 1 128 100 3 MemoryLocation.Host D =
      Except.ok (scenarioPool D [D, D + 128, D + 256]) ∧
    MemPool.allocate (scenarioPool D [D, D + 128, D + 256]) =
      (Except.ok (UniqueBuffer.mk_ (D + 256) 100 (some poolDeleteTag)
        MemoryLocation.Host), scenarioPool D [D, D + 128]) ∧
    MemPool.allocate (scenarioPool D [D, D + 128]) =
      (Except.ok (UniqueBuffer.mk_ (D + 128) 100 (some poolDeleteTag)
        MemoryLocation.Host), scenarioPool D [D]) ∧
    MemPool.allocate (scenarioPool D [D]) =
      (Except.ok (UniqueBuffer.mk_ D 100 (some poolDeleteTag)
        MemoryLocation.Host), scenarioPool D []) ∧
    MemPool.allocate (scenarioPool D []) =
      (Except.error PoolError.resourceExhausted, scenarioPool D []) ∧
    MemPool.allocate
        (MemPool.release_block (scenarioPool D []) (D + 256)) =
      (Except.ok (UniqueBuffer.mk_ (D + 256) 100 (some poolDeleteTag)
        MemoryLocation.Host), scenarioPool D []) ∧
    D % 128 = 0 ∧ (D + 128) % 128 = 0 ∧ (D + 256) % 128 = 0 := by
  refine ⟨?_, rfl, rfl, rfl, rfl, rfl, hD, by omega, by omega⟩
  simp [MemPool.mk_, MemPool.computeStride, scenarioPool, List.range_succ]

/-- Witness for `pool_scenario` at the concrete aligned base 1280. -/
theorem pool_scenario_witness :
    MemPool.allocate (scenarioPool 1280 [1280, 1408, 1536]) =
      (Except.ok (UniqueBuffer.mk_ 1536 100 (some poolDeleteTag)
        MemoryLocation.Host), scenarioPool 1280 [1280, 1408]) :=
  (pool_scenario 1280 (by decide)).2.1

/-- C2, the code evaluated at a failing input: with `sizeof(T) = 3`,
Alignment 64 and block_size 1, the constructor computes stride 21, and
`21 * 3 = 63` is not a multiple of 64 (the smallest multiple of 64 that is
≥ 3 is 64, not 63); with the aligned base 64 the free list places the
second block at byte address 127, which is not 64-aligned. -/
theorem pool_stride_misalignment :
    MemPool.computeStride 3 64 1 = 21 ∧
    ¬ (64 ∣ MemPool.computeStride 3 64 1 * 3) ∧
    MemPool.computeStride 3 64 1 * 3 < 64 ∧
    MemPool.mk_ 3 64 1 2 MemoryLocation.Host 64 =
      Except.ok ⟨3, 64, 1, 21, 2, MemoryLocation.Host, 64, [64, 127]⟩ ∧
    ¬ (127 % 64 = 0) := by
  refine ⟨rfl, by decide, by decide, ?_, by decide⟩
  simp [MemPool.mk_, MemPool.computeStride, List.range_succ]

end NstdMemory
